import Mathlib

/-!
Shallow embedding of the mdboard terminal client core (src/tui):
the data model (model.rs), the application state and index clamping
(app.rs), the reducer for sync messages and key input (main.rs), and the
live-sync engine's diff/reconnect logic (poll.rs).  Remote fetches are
modelled as oracles (`ApiResults`): `some x` is a successful response,
`none` a failed one.
-/

namespace Mdboard

/-- Stand-in for `serde_json::Value` payloads; the core only ever
stringifies them, never interprets them. -/
abbrev JsonValue := String

structure VersionInfo where
  version : String
  project : String
deriving DecidableEq, Repr

structure ColumnDef where
  name : String
  label : String
  color : String
deriving DecidableEq, Repr

structure Config where
  columns : List ColumnDef
  settings : List (String × JsonValue)
  scopes : List String
deriving DecidableEq, Repr

inductive ScopesOrString where
  | List (v : List String)
  | Single (s : String)
  | Empty
deriving DecidableEq, Repr

structure TaskMeta where
  id : Option JsonValue
  title : String
  assignee : String
  scopes : ScopesOrString
  created : String
  due : String
  branch : String
  completed : String
deriving DecidableEq, Repr

structure Task where
  filename : String
  column : String
  meta : TaskMeta
  body : String
deriving DecidableEq, Repr

structure Column where
  name : String
  label : String
  color : String
  tasks : List Task
deriving DecidableEq, Repr

structure Board where
  columns : List Column
deriving DecidableEq, Repr

structure CommentMeta where
  author : String
  created : String
deriving DecidableEq, Repr

structure Comment where
  filename : String
  meta : CommentMeta
  body : String
deriving DecidableEq, Repr

structure ResourceMeta where
  id : Option JsonValue
  title : String
  created : String
  updated : String
  revision : Option Int
  scopes : ScopesOrString
deriving DecidableEq, Repr

structure Resource where
  dir_name : String
  meta : ResourceMeta
  body : String
deriving DecidableEq, Repr

structure RevisionMeta where
  revision : Option Int
  created : String
deriving DecidableEq, Repr

structure Revision where
  filename : String
  meta : RevisionMeta
  body : String
deriving DecidableEq, Repr

structure ActivityEntry where
  entry_type : String
  title : String
  id : Option JsonValue
  column : Option String
  filename : Option String
  dir_name : Option String
  /-- an `f64` mtime in the source; the core never interprets it -/
  mtime : Int
  revision : Option Int
deriving DecidableEq, Repr

structure PollHashes where
  board : String
  prompts : String
  documents : String
deriving DecidableEq, Repr

inductive View where
  | Board
  | Prompts
  | Documents
  | Activity
deriving DecidableEq, Repr

def View.index : View → Nat
  | .Board => 0
  | .Prompts => 1
  | .Documents => 2
  | .Activity => 3

def View.from_index : Nat → View
  | 0 => .Board
  | 1 => .Prompts
  | 2 => .Documents
  | 3 => .Activity
  | _ => .Board

/-- `View::ALL.len()` in the source. -/
def View.all_len : Nat := 4

def View.next (v : View) : View := View.from_index ((v.index + 1) % View.all_len)

def View.prev (v : View) : View := View.from_index ((v.index + View.all_len - 1) % View.all_len)

inductive ResourceType where
  | Prompt
  | Document
deriving DecidableEq, Repr

inductive Overlay where
  | TaskDetail (task : Task) (comments : List Comment) (scroll : Nat)
  | ResourceDetail (resource : Resource) (revisions : List Revision)
      (current_rev : Option Nat) (scroll : Nat) (resource_type : ResourceType)
  | Help (scroll : Nat)
deriving DecidableEq, Repr

inductive ConnectionState where
  | Connected
  | Disconnected
  | Connecting
deriving DecidableEq, Repr

inductive Focus where
  | TabBar
  | Content
deriving DecidableEq, Repr

structure App where
  view : View
  overlay : Option Overlay
  should_quit : Bool
  focus : Focus
  version : Option VersionInfo
  board : Option Board
  config : Option Config
  prompts : List Resource
  documents : List Resource
  activity : List ActivityEntry
  board_col : Nat
  board_row : List Nat
  prompt_index : Nat
  document_index : Nat
  activity_index : Nat
  connection : ConnectionState
  /-- `Option<Instant>` in the source; only its presence is modelled -/
  last_poll : Option Unit
  poll_hashes : Option PollHashes
  loading : Bool
deriving DecidableEq, Repr

def App.new : App where
  view := .Board
  overlay := none
  should_quit := false
  focus := .Content
  version := none
  board := none
  config := none
  prompts := []
  documents := []
  activity := []
  board_col := 0
  board_row := []
  prompt_index := 0
  document_index := 0
  activity_index := 0
  connection := .Connecting
  last_poll := none
  poll_hashes := none
  loading := true

def App.column_count (a : App) : Nat :=
  (a.board.map (fun b => b.columns.length)).getD 0

def App.current_column_tasks (a : App) : List Task :=
  ((a.board.bind (fun b => b.columns[a.board_col]?)).map (fun c => c.tasks)).getD []

def App.current_board_row (a : App) : Nat :=
  (a.board_row[a.board_col]?).getD 0

/-- `while self.board_row.len() <= self.board_col { push(0) }` then assign. -/
def App.set_board_row (a : App) (row : Nat) : App :=
  let grown := a.board_row ++ List.replicate (a.board_col + 1 - a.board_row.length) 0
  { a with board_row := grown.set a.board_col row }

def App.selected_task (a : App) : Option Task :=
  a.current_column_tasks[a.current_board_row]?

/-- `Vec::resize(ncols, 0)` applied only when the vector is shorter. -/
def growRows (rows : List Nat) (n : Nat) : List Nat :=
  if rows.length < n then rows ++ List.replicate (n - rows.length) 0 else rows

def App.ensure_board_row_vec (a : App) : App :=
  { a with board_row := growRows a.board_row a.column_count }

/-- `if len > 0 && idx >= len { idx = len - 1 }` — the clamping pattern used
for every navigation index in `App::clamp_indices`. -/
def clampIdx (idx len : Nat) : Nat :=
  if 0 < len ∧ len ≤ idx then len - 1 else idx

/-- The `for (i, col) in board.columns.iter().enumerate()` loop of
`App::clamp_indices`: entries of `rows` beyond the column list are untouched. -/
def clampRows : List Column → List Nat → List Nat
  | _, [] => []
  | [], r :: rs => r :: clampRows [] rs
  | c :: cs, r :: rs => clampIdx r c.tasks.length :: clampRows cs rs

def App.clamp_indices (a : App) : App :=
  let ncols := a.column_count
  let grown := growRows a.board_row ncols
  { a with
    board_col := clampIdx a.board_col ncols
    board_row := match a.board with
      | some board => clampRows board.columns grown
      | none => grown
    prompt_index := clampIdx a.prompt_index a.prompts.length
    document_index := clampIdx a.document_index a.documents.length
    activity_index := clampIdx a.activity_index a.activity.length }

inductive PollMessage where
  | InitialData (version : VersionInfo) (board : Board) (config : Config)
      (prompts : List Resource) (documents : List Resource)
      (activity : List ActivityEntry)
  | HashesChanged (hashes : PollHashes)
  | BoardUpdated (board : Board)
  | PromptsUpdated (prompts : List Resource)
  | DocumentsUpdated (documents : List Resource)
  | ActivityUpdated (activity : List ActivityEntry)
  | ConnectionLost
  | ConnectionRestored
  | Error (msg : String)
deriving DecidableEq, Repr

def handle_poll_message (app : App) (msg : PollMessage) : App :=
  match msg with
  | .InitialData version board config prompts documents activity =>
      (({ app with
            version := some version
            board := some board
            config := some config
            prompts := prompts
            documents := documents
            activity := activity
            connection := .Connected
            loading := false } : App).ensure_board_row_vec).clamp_indices
  | .HashesChanged hashes =>
      { app with poll_hashes := some hashes, last_poll := some () }
  | .BoardUpdated board =>
      (({ app with board := some board } : App).ensure_board_row_vec).clamp_indices
  | .PromptsUpdated prompts =>
      ({ app with prompts := prompts } : App).clamp_indices
  | .DocumentsUpdated documents =>
      ({ app with documents := documents } : App).clamp_indices
  | .ActivityUpdated activity =>
      ({ app with activity := activity } : App).clamp_indices
  | .ConnectionLost => { app with connection := .Disconnected }
  | .ConnectionRestored => { app with connection := .Connected }
  | .Error _ => app

/-- Oracle for the outcome of every `ApiClient` request issued while handling
a key or a sync step: `some` is `Ok`, `none` is `Err`. -/
structure ApiResults where
  version : Option VersionInfo
  config : Option Config
  board : Option Board
  get_task : String → String → Option Task
  get_comments : String → Option (List Comment)
  list_prompts : Option (List Resource)
  get_prompt : String → Option Resource
  list_prompt_revisions : String → Option (List Revision)
  list_documents : Option (List Resource)
  get_document : String → Option Resource
  list_document_revisions : String → Option (List Revision)
  activity : Option (List ActivityEntry)

inductive KeyCode where
  | Char (c : Char)
  | Left
  | Right
  | Up
  | Down
  | Enter
  | Esc
  | Tab
  | BackTab
deriving DecidableEq, Repr

/-- A crossterm `KeyEvent`; only the CONTROL modifier matters to the client. -/
structure KeyEvent where
  code : KeyCode
  ctrl : Bool
deriving DecidableEq, Repr

def scroll_overlay (app : App) (delta : Int) : App :=
  match app.overlay with
  | some (.TaskDetail task comments scroll) =>
      { app with
        overlay := some (.TaskDetail task comments
          (max ((scroll : Int) + delta) 0).toNat) }
  | some (.ResourceDetail resource revisions current_rev scroll resource_type) =>
      { app with
        overlay := some (.ResourceDetail resource revisions current_rev
          (max ((scroll : Int) + delta) 0).toNat resource_type) }
  | some (.Help scroll) =>
      { app with overlay := some (.Help (max ((scroll : Int) + delta) 0).toNat) }
  | none => app

def set_overlay_scroll (app : App) (value : Nat) : App :=
  match app.overlay with
  | some (.TaskDetail task comments _) =>
      { app with overlay := some (.TaskDetail task comments value) }
  | some (.ResourceDetail resource revisions current_rev _ resource_type) =>
      { app with
        overlay := some (.ResourceDetail resource revisions current_rev value
          resource_type) }
  | some (.Help _) => { app with overlay := some (.Help value) }
  | none => app

def navigate_revision (app : App) (delta : Int) : App :=
  match app.overlay with
  | some (.ResourceDetail resource revisions current_rev _scroll resource_type) =>
      if revisions.isEmpty then app
      else
        let new_rev : Option (Option Nat) :=
          match current_rev with
          | none =>
              if delta < 0 then
                some (some (revisions.length - 1))  -- go to latest revision
              else
                none  -- already at current: early return
          | some idx =>
              let new_idx : Int := (idx : Int) + delta
              if new_idx < 0 ∨ (revisions.length : Int) ≤ new_idx then
                some none  -- back to current
              else
                some (some new_idx.toNat)
        match new_rev with
        | none => app
        | some nr =>
            { app with
              overlay := some (.ResourceDetail resource revisions nr 0 resource_type) }
  | _ => app

def handle_overlay_key (app : App) (key : KeyEvent) : App :=
  match key.code with
  | .Esc => { app with overlay := none }
  | .Char 'q' => { app with overlay := none }
  | .Char 'j' | .Down => scroll_overlay app 1
  | .Char 'k' | .Up => scroll_overlay app (-1)
  | .Char ' ' => scroll_overlay app 15
  | .Char 'd' => if key.ctrl then scroll_overlay app 15 else app
  | .Char 'u' => if key.ctrl then scroll_overlay app (-15) else app
  | .Char 'g' => set_overlay_scroll app 0
  | .Char 'G' => scroll_overlay app 1000  -- large number, effectively bottom
  | .Char '[' => navigate_revision app (-1)
  | .Char ']' => navigate_revision app 1
  | _ => app

def handle_board_key (app : App) (api : ApiResults) (key : KeyEvent) : App :=
  let ncols := app.column_count
  if ncols = 0 then app
  else
    match key.code with
    | .Char 'h' | .Left =>
        if 0 < app.board_col then { app with board_col := app.board_col - 1 } else app
    | .Char 'l' | .Right =>
        if app.board_col + 1 < ncols then { app with board_col := app.board_col + 1 } else app
    | .Char 'j' | .Down =>
        let tasks_len := app.current_column_tasks.length
        if 0 < tasks_len then
          let row := app.current_board_row
          if row + 1 < tasks_len then app.set_board_row (row + 1) else app
        else app
    | .Char 'k' | .Up =>
        let row := app.current_board_row
        if 0 < row then app.set_board_row (row - 1) else { app with focus := .TabBar }
    | .Char 'g' => app.set_board_row 0
    | .Char 'G' =>
        let tasks_len := app.current_column_tasks.length
        if 0 < tasks_len then app.set_board_row (tasks_len - 1) else app
    | .Enter | .Char ' ' =>
        match app.selected_task with
        | some task =>
            let task_id := task.meta.id.getD ""
            let full_task := (api.get_task task.column task.filename).getD task
            let comments :=
              if task_id ≠ "" then (api.get_comments task_id).getD [] else []
            { app with overlay := some (.TaskDetail full_task comments 0) }
        | none => app
    | _ => app

def handle_list_key (app : App) (api : ApiResults) (key : KeyEvent)
    (rtype : ResourceType) : App :=
  let len := match rtype with
    | .Prompt => app.prompts.length
    | .Document => app.documents.length
  let index := match rtype with
    | .Prompt => app.prompt_index
    | .Document => app.document_index
  let setIndex : Nat → App := fun i => match rtype with
    | .Prompt => { app with prompt_index := i }
    | .Document => { app with document_index := i }
  if len = 0 then
    -- Empty list — up goes to tab bar
    if key.code = .Char 'k' ∨ key.code = .Up then { app with focus := .TabBar } else app
  else
    match key.code with
    | .Char 'j' | .Down => if index + 1 < len then setIndex (index + 1) else app
    | .Char 'k' | .Up =>
        if 0 < index then setIndex (index - 1) else { app with focus := .TabBar }
    | .Char 'g' => setIndex 0
    | .Char 'G' => setIndex (len - 1)
    | .Enter | .Char ' ' =>
        let resources := match rtype with
          | .Prompt => app.prompts
          | .Document => app.documents
        match resources[index]? with
        | some res =>
            let dir_name := res.dir_name
            let full_res := match rtype with
              | .Prompt => (api.get_prompt dir_name).getD res
              | .Document => (api.get_document dir_name).getD res
            let revisions := match rtype with
              | .Prompt => (api.list_prompt_revisions dir_name).getD []
              | .Document => (api.list_document_revisions dir_name).getD []
            { app with
              overlay := some (.ResourceDetail full_res revisions none 0 rtype) }
        | none => app
    | _ => app

def open_activity_entry (app : App) (api : ApiResults) (entry : ActivityEntry) : App :=
  if entry.entry_type = "task" then
    match entry.column, entry.filename with
    | some col, some filename =>
        let task_id := entry.id.getD ""
        match api.get_task col filename with
        | some task =>
            let comments :=
              if task_id ≠ "" then (api.get_comments task_id).getD [] else []
            { app with overlay := some (.TaskDetail task comments 0) }
        | none => app
    | _, _ => app
  else if entry.entry_type = "prompt" then
    match entry.dir_name with
    | some dir_name =>
        match api.get_prompt dir_name with
        | some resource =>
            let revisions := (api.list_prompt_revisions dir_name).getD []
            { app with
              overlay := some (.ResourceDetail resource revisions none 0 .Prompt) }
        | none => app
    | none => app
  else if entry.entry_type = "document" then
    match entry.dir_name with
    | some dir_name =>
        match api.get_document dir_name with
        | some resource =>
            let revisions := (api.list_document_revisions dir_name).getD []
            { app with
              overlay := some (.ResourceDetail resource revisions none 0 .Document) }
        | none => app
    | none => app
  else app

def handle_activity_key (app : App) (api : ApiResults) (key : KeyEvent) : App :=
  let len := app.activity.length
  if len = 0 then
    if key.code = .Char 'k' ∨ key.code = .Up then { app with focus := .TabBar } else app
  else
    match key.code with
    | .Char 'j' | .Down =>
        if app.activity_index + 1 < len then
          { app with activity_index := app.activity_index + 1 }
        else app
    | .Char 'k' | .Up =>
        if 0 < app.activity_index then
          { app with activity_index := app.activity_index - 1 }
        else { app with focus := .TabBar }
    | .Char 'g' => { app with activity_index := 0 }
    | .Char 'G' => { app with activity_index := len - 1 }
    | .Enter | .Char ' ' =>
        match app.activity[app.activity_index]? with
        | some entry => open_activity_entry app api entry
        | none => app
    | _ => app

def refresh_current_view (app : App) (api : ApiResults) : App :=
  match app.view with
  | .Board =>
      match api.board with
      | some board =>
          (({ app with board := some board } : App).ensure_board_row_vec).clamp_indices
      | none => app
  | .Prompts =>
      match api.list_prompts with
      | some prompts => ({ app with prompts := prompts } : App).clamp_indices
      | none => app
  | .Documents =>
      match api.list_documents with
      | some docs => ({ app with documents := docs } : App).clamp_indices
      | none => app
  | .Activity =>
      match api.activity with
      | some activity => ({ app with activity := activity } : App).clamp_indices
      | none => app

def handle_key (app : App) (api : ApiResults) (key : KeyEvent) : App :=
  -- Global: Ctrl+C always quits
  if key.ctrl = true ∧ key.code = .Char 'c' then { app with should_quit := true }
  else
    match app.overlay with
    | some _ => handle_overlay_key app key
    | none =>
      -- Global keys that work regardless of focus
      match key.code with
      | .Char 'q' => { app with should_quit := true }
      | .Char '1' => { app with view := .Board, focus := .Content }
      | .Char '2' => { app with view := .Prompts, focus := .Content }
      | .Char '3' => { app with view := .Documents, focus := .Content }
      | .Char '4' => { app with view := .Activity, focus := .Content }
      | .Char '?' => { app with overlay := some (.Help 0) }
      | .Char 'r' => refresh_current_view app api
      | _ =>
        -- Tab bar focus mode
        if app.focus = .TabBar then
          match key.code with
          | .Char 'h' | .Left | .BackTab => { app with view := app.view.prev }
          | .Char 'l' | .Right | .Tab => { app with view := app.view.next }
          | .Char 'j' | .Down | .Enter | .Char ' ' => { app with focus := .Content }
          | .Esc => { app with focus := .Content }
          | _ => app
        else
          -- Tab/BackTab always cycle views from content too
          match key.code with
          | .Tab => { app with view := app.view.next }
          | .BackTab => { app with view := app.view.prev }
          | _ =>
            match app.view with
            | .Board => handle_board_key app api key
            | .Prompts => handle_list_key app api key .Prompt
            | .Documents => handle_list_key app api key .Document
            | .Activity => handle_activity_key app api key

/-- A category the sync engine refetches from the server. -/
inductive Refetch where
  | board
  | prompts
  | documents
  | activity
deriving DecidableEq, Repr

/-- The `if let Some(prev) = &last_hashes` diff block of `connect_sse`
(poll.rs lines 106-132): returns the refetches performed, in order, and
the messages sent over the channel, in order. -/
def process_hashes (api : ApiResults) (prev hashes : PollHashes) :
    List Refetch × List PollMessage :=
  let step1 :=
    if prev.board ≠ hashes.board then
      (true, [Refetch.board],
        match api.board with
        | some board => [PollMessage.BoardUpdated board]
        | none => [])
    else (false, [], [])
  let step2 :=
    if prev.prompts ≠ hashes.prompts then
      (true, [Refetch.prompts],
        match api.list_prompts with
        | some prompts => [PollMessage.PromptsUpdated prompts]
        | none => [])
    else (false, [], [])
  let step3 :=
    if prev.documents ≠ hashes.documents then
      (true, [Refetch.documents],
        match api.list_documents with
        | some docs => [PollMessage.DocumentsUpdated docs]
        | none => [])
    else (false, [], [])
  let changed := step1.1 || step2.1 || step3.1
  let step4 :=
    if changed then
      ([Refetch.activity],
        (match api.activity with
         | some activity => [PollMessage.ActivityUpdated activity]
         | none => []) ++ [PollMessage.HashesChanged hashes])
    else ([], [])
  (step1.2.1 ++ step2.2.1 ++ step3.2.1 ++ step4.1,
   step1.2.2 ++ step2.2.2 ++ step3.2.2 ++ step4.2)

/-- Handling of one parsed SSE `init`/`changed` hash triple inside
`connect_sse`, including the `last_hashes = Some(hashes)` update. -/
def handle_sse_hashes (api : ApiResults) (last : Option PollHashes)
    (hashes : PollHashes) : List Refetch × List PollMessage × Option PollHashes :=
  match last with
  | some prev =>
      let r := process_hashes api prev hashes
      (r.1, r.2, some hashes)
  | none => ([], [], some hashes)

/-- The stream-processing loop of `connect_sse` over the meaningful hash
triples received on one connection, threading `last_hashes`. -/
def run_hash_events (api : ApiResults) (last : Option PollHashes) :
    List PollHashes → List Refetch × List PollMessage × Option PollHashes
  | [] => ([], [], last)
  | h :: rest =>
      let r := handle_sse_hashes api last h
      let r' := run_hash_events api r.2.2 rest
      (r.1 ++ r'.1, r.2.1 ++ r'.2.1, r'.2.2)

/-- `fetch_all`: `try_join!` of the six initial categories; all must succeed. -/
def fetch_all (api : ApiResults) : Option PollMessage :=
  match api.version, api.board, api.config, api.list_prompts,
      api.list_documents, api.activity with
  | some version, some board, some config, some prompts, some documents,
      some activity =>
      some (.InitialData version board config prompts documents activity)
  | _, _, _, _, _, _ => none

/-- One iteration of the `spawn_poller` reconnect loop, seen from outside:
either the stream fails to open, or it opens, delivers some hash triples,
and then drops, or it opens and is still open when observation ends. -/
inductive Attempt where
  | fail
  | drop (hs : List PollHashes)
  | live (hs : List PollHashes)

/-- The successful-open path of `connect_sse` (poll.rs lines 82-89 plus the
stream loop): emit ConnectionRestored and a full refetch when the engine was
not marked connected, then process the stream's hash triples. -/
def connect_attempt (api : ApiResults) (was_connected : Bool)
    (hs : List PollHashes) : List PollMessage :=
  let pre :=
    if was_connected then []
    else
      [PollMessage.ConnectionRestored] ++
        (match fetch_all api with
         | some msg => [msg]
         | none => [])
  pre ++ (run_hash_events api none hs).2.1

/-- The `loop` of `spawn_poller`: after each attempt, emit ConnectionLost
only if the engine was marked connected, then retry.  A `live` attempt ends
the observation window with the stream still open. -/
def run_attempts (api : ApiResults) : Bool → List Attempt → List PollMessage
  | _, [] => []
  | was_connected, .fail :: rest =>
      (if was_connected then [PollMessage.ConnectionLost] else []) ++
        run_attempts api false rest
  | was_connected, .drop hs :: rest =>
      connect_attempt api was_connected hs ++ [PollMessage.ConnectionLost] ++
        run_attempts api false rest
  | was_connected, .live hs :: _ =>
      connect_attempt api was_connected hs

/-- `spawn_poller`: initial fetch (Error + ConnectionLost on failure), then
the reconnect loop with `was_connected` initialized to `true`. -/
def spawn_poller_trace (api : ApiResults) (attempts : List Attempt) :
    List PollMessage :=
  (match fetch_all api with
   | some msg => [msg]
   | none => [PollMessage.Error "Initial fetch failed", PollMessage.ConnectionLost]) ++
    run_attempts api true attempts

/- Observers used to state the claims. -/

def isHashesChanged : PollMessage → Bool
  | .HashesChanged _ => true
  | _ => false

def isConnectionLost : PollMessage → Bool
  | .ConnectionLost => true
  | _ => false

def isConnectionRestored : PollMessage → Bool
  | .ConnectionRestored => true
  | _ => false

/-- The scroll offset of the currently open overlay, if any. -/
def overlayScroll (a : App) : Option Nat :=
  match a.overlay with
  | some (.TaskDetail _ _ scroll) => some scroll
  | some (.ResourceDetail _ _ _ scroll _) => some scroll
  | some (.Help scroll) => some scroll
  | none => none

/-- The revision cursor of the open ResourceDetail overlay:
`none` when no such overlay is open. -/
def overlayRevCursor (a : App) : Option (Option Nat) :=
  match a.overlay with
  | some (.ResourceDetail _ _ current_rev _ _) => some current_rev
  | _ => none

/-- The board's column list (empty when no board has been fetched). -/
def boardColumns (a : App) : List Column :=
  match a.board with
  | some b => b.columns
  | none => []

/-- The five collection-replacement messages of the reducer. -/
def isReplacement : PollMessage → Prop
  | .InitialData _ _ _ _ _ _ => True
  | .BoardUpdated _ => True
  | .PromptsUpdated _ => True
  | .DocumentsUpdated _ => True
  | .ActivityUpdated _ => True
  | _ => False

/-- Applies a sequence of (unmodified) key presses to the overlay handler. -/
def pressSeq (a : App) (ks : List KeyCode) : App :=
  ks.foldl (fun s k => handle_overlay_key s ⟨k, false⟩) a

/-- Key-class predicates for the input dispatcher's tab-bar mode. -/
def isQuitCombo (k : KeyEvent) : Prop := k.ctrl = true ∧ k.code = .Char 'c'

def isGlobalKey (k : KeyEvent) : Prop :=
  k.code = .Char 'q' ∨ k.code = .Char '1' ∨ k.code = .Char '2' ∨
  k.code = .Char '3' ∨ k.code = .Char '4' ∨ k.code = .Char '?' ∨ k.code = .Char 'r'

def isCycleLeftKey (k : KeyEvent) : Prop :=
  k.code = .Char 'h' ∨ k.code = .Left ∨ k.code = .BackTab

def isCycleRightKey (k : KeyEvent) : Prop :=
  k.code = .Char 'l' ∨ k.code = .Right ∨ k.code = .Tab

def isToContentKey (k : KeyEvent) : Prop :=
  k.code = .Char 'j' ∨ k.code = .Down ∨ k.code = .Enter ∨
  k.code = .Char ' ' ∨ k.code = .Esc

/-- The overlay scroll actions and the i32 offset arithmetic the source
applies for each before casting back to usize: relative moves clamp at 0 via
`.max(0)`, "top" (`g`) is an absolute 0, "bottom" (`G`) adds the large
sentinel 1000. -/
inductive ScrollAct where
  | line_down
  | line_up
  | page_down
  | page_up
  | top
  | bottom

def applyScrollInt (s : Int) : ScrollAct → Int
  | .line_down => max (s + 1) 0
  | .line_up => max (s + -1) 0
  | .page_down => max (s + 15) 0
  | .page_up => max (s + -15) 0
  | .top => 0
  | .bottom => max (s + 1000) 0

/-- The index-clamping contract the reducer actually establishes after a
collection-replacement message: a nonempty collection's index is
`min(previous, len - 1)`; an empty collection's index is left unchanged;
per-column rows follow the same rule against the (grown) row vector. -/
def clampedAfter (a a' : App) : Prop :=
  ((a'.prompts ≠ [] → a'.prompt_index = min a.prompt_index (a'.prompts.length - 1)) ∧
   (a'.prompts = [] → a'.prompt_index = a.prompt_index)) ∧
  ((a'.documents ≠ [] →
      a'.document_index = min a.document_index (a'.documents.length - 1)) ∧
   (a'.documents = [] → a'.document_index = a.document_index)) ∧
  ((a'.activity ≠ [] →
      a'.activity_index = min a.activity_index (a'.activity.length - 1)) ∧
   (a'.activity = [] → a'.activity_index = a.activity_index)) ∧
  ((0 < a'.column_count → a'.board_col = min a.board_col (a'.column_count - 1)) ∧
   (a'.column_count = 0 → a'.board_col = a.board_col)) ∧
  (∀ (i : Nat) (c : Column), (boardColumns a')[i]? = some c →
     (c.tasks ≠ [] →
        a'.board_row[i]? =
          some (min ((a.board_row[i]?).getD 0) (c.tasks.length - 1))) ∧
     (c.tasks = [] → a'.board_row[i]? = some ((a.board_row[i]?).getD 0)))

/- Concrete fixtures used by witnesses and counterexamples. -/

/-- Api oracle in which every request fails. -/
def apiNone : ApiResults :=
  ⟨none, none, none, fun _ _ => none, fun _ => none, none, fun _ => none,
   fun _ => none, none, fun _ => none, fun _ => none, none⟩

def sampleVersion : VersionInfo := ⟨"0.1.0", "proj"⟩

def sampleConfig : Config := ⟨[], [], []⟩

def emptyBoard : Board := ⟨[]⟩

/-- Api oracle in which every initial-sync request succeeds (with empty data). -/
def apiOk : ApiResults :=
  ⟨some sampleVersion, some sampleConfig, some emptyBoard, fun _ _ => none,
   fun _ => none, some [], fun _ => none, fun _ => none, some [], fun _ => none,
   fun _ => none, some []⟩

def emptyResourceMeta : ResourceMeta := ⟨none, "", "", "", none, .Empty⟩

def res0 : Resource := ⟨"r0", emptyResourceMeta, ""⟩

def res1 : Resource := ⟨"r1", emptyResourceMeta, ""⟩

def res2 : Resource := ⟨"r2", emptyResourceMeta, ""⟩

def rev0 : Revision := ⟨"v0", ⟨none, ""⟩, ""⟩

def rev1 : Revision := ⟨"v1", ⟨none, ""⟩, ""⟩

def rev2 : Revision := ⟨"v2", ⟨none, ""⟩, ""⟩

def sampleTask : Task := ⟨"t0.md", "todo", ⟨some "42", "T", "", .Empty, "", "", "", ""⟩, "body"⟩

def sampleBoard : Board := ⟨[⟨"todo", "", "", [sampleTask]⟩]⟩

/-- A state with the board loaded and the sample task selected. -/
def appBoard : App := { App.new with board := some sampleBoard, board_row := [0] }

/-- A state with a ResourceDetail overlay over three revisions, cursor at
current, some prior scroll. -/
def appResDetail : App :=
  { App.new with overlay := some (.ResourceDetail res0 [rev0, rev1, rev2] none 7 .Prompt) }

def appHelp5 : App := { App.new with overlay := some (.Help 5) }

def appHelp0 : App := { App.new with overlay := some (.Help 0) }

/-- A state with tab-bar focus and no overlay. -/
def appTabBar : App := { App.new with focus := .TabBar }

/-- A state in the Prompts view, content focus, empty prompt list. -/
def appPromptsEmpty : App := { App.new with view := .Prompts, focus := .Content }

/-- A state whose prompt index was (hypothetically) left at 5. -/
def appIdx5 : App := { App.new with prompt_index := 5 }

/-- A reachable state with a stale prompt index over an emptied list:
load three prompts, switch to the Prompts view, move down twice, then
receive a PromptsUpdated replacing the list with an empty one. -/
def stalePromptState : App :=
  handle_poll_message
    (handle_key
      (handle_key
        (handle_key
          (handle_poll_message App.new (.PromptsUpdated [res0, res1, res2]))
          apiNone ⟨.Char '2', false⟩)
        apiNone ⟨.Down, false⟩)
      apiNone ⟨.Down, false⟩)
    (.PromptsUpdated [])

/- Helper lemmas about the clamping primitives. -/

lemma clampIdx_pos (i : Nat) {n : Nat} (h : 0 < n) : clampIdx i n = min i (n - 1) := by
  unfold clampIdx
  split_ifs with h' <;> omega

lemma clampIdx_zero (i : Nat) : clampIdx i 0 = i := by
  simp [clampIdx]

lemma replicate_zero_getElem?_getD (m j : Nat) :
    ((List.replicate m (0 : Nat))[j]?).getD 0 = 0 := by
  induction m generalizing j with
  | zero => rfl
  | succ m ih => cases j <;> simp [List.replicate, ih]

lemma replicate_zero_getElem?_lt {m j : Nat} (h : j < m) :
    (List.replicate m (0 : Nat))[j]? = some 0 := by
  induction m generalizing j with
  | zero => omega
  | succ m ih =>
      cases j with
      | zero => simp [List.replicate_succ]
      | succ j => simpa [List.replicate] using ih (by omega)

lemma growRows_getD (rows : List Nat) (n i : Nat) :
    ((growRows rows n)[i]?).getD 0 = (rows[i]?).getD 0 := by
  unfold growRows
  split_ifs with hlen
  · rcases lt_or_ge i rows.length with hi | hi
    · rw [List.getElem?_append_left hi]
    · rw [List.getElem?_append_right hi, List.getElem?_eq_none hi,
        replicate_zero_getElem?_getD]
      rfl
  · rfl

lemma growRows_getElem?_lt (rows : List Nat) {n i : Nat} (h : i < n) :
    (growRows rows n)[i]? = some ((rows[i]?).getD 0) := by
  unfold growRows
  split_ifs with hlen
  · rcases lt_or_ge i rows.length with hi | hi
    · rw [List.getElem?_append_left hi, List.getElem?_eq_getElem hi]
      rfl
    · rw [List.getElem?_append_right hi, List.getElem?_eq_none hi,
        replicate_zero_getElem?_lt (by omega)]
      rfl
  · have hi : i < rows.length := by omega
    rw [List.getElem?_eq_getElem hi]
    rfl

lemma clampRows_getElem? : ∀ (cols : List Column) (rows : List Nat) (i : Nat),
    (clampRows cols rows)[i]? =
      (rows[i]?).map (fun r =>
        match cols[i]? with
        | some c => clampIdx r c.tasks.length
        | none => r) := by
  intro cols rows
  induction rows generalizing cols with
  | nil => intro i; cases cols <;> simp [clampRows]
  | cons r rs ih =>
      intro i
      cases cols with
      | nil => cases i <;> simp [clampRows, ih]
      | cons c cs => cases i <;> simp [clampRows, ih]

/- Projection lemmas for `App.clamp_indices` (all definitional). -/

lemma clamp_view (a : App) : a.clamp_indices.view = a.view := rfl

lemma clamp_focus (a : App) : a.clamp_indices.focus = a.focus := rfl

lemma clamp_overlay (a : App) : a.clamp_indices.overlay = a.overlay := rfl

lemma clamp_prompts (a : App) : a.clamp_indices.prompts = a.prompts := rfl

lemma clamp_documents (a : App) : a.clamp_indices.documents = a.documents := rfl

lemma clamp_activity (a : App) : a.clamp_indices.activity = a.activity := rfl

lemma clamp_board (a : App) : a.clamp_indices.board = a.board := rfl

lemma clamp_prompt_index (a : App) :
    a.clamp_indices.prompt_index = clampIdx a.prompt_index a.prompts.length := rfl

lemma clamp_document_index (a : App) :
    a.clamp_indices.document_index = clampIdx a.document_index a.documents.length := rfl

lemma clamp_activity_index (a : App) :
    a.clamp_indices.activity_index = clampIdx a.activity_index a.activity.length := rfl

lemma clamp_board_col (a : App) :
    a.clamp_indices.board_col = clampIdx a.board_col a.column_count := rfl

lemma clamp_board_row (a : App) :
    a.clamp_indices.board_row =
      match a.board with
      | some board => clampRows board.columns (growRows a.board_row a.column_count)
      | none => growRows a.board_row a.column_count := rfl

lemma clamp_column_count (a : App) :
    a.clamp_indices.column_count = a.column_count := rfl

/-- Master lemma: clamping any state whose index fields agree with `a`
(and whose row vector agrees with `a`'s up to trailing zeros) establishes
the clamping contract relative to `a`. -/
lemma clampedAfter_clamp (a s : App)
    (h1 : s.prompt_index = a.prompt_index)
    (h2 : s.document_index = a.document_index)
    (h3 : s.activity_index = a.activity_index)
    (h4 : s.board_col = a.board_col)
    (h5 : ∀ i : Nat, (s.board_row[i]?).getD 0 = (a.board_row[i]?).getD 0) :
    clampedAfter a s.clamp_indices := by
  unfold clampedAfter
  refine ⟨⟨?_, ?_⟩, ⟨?_, ?_⟩, ⟨?_, ?_⟩, ⟨?_, ?_⟩, ?_⟩
  · intro h
    rw [clamp_prompts] at h ⊢
    rw [clamp_prompt_index, h1, clampIdx_pos _ (List.length_pos.mpr h)]
  · intro h
    rw [clamp_prompts] at h
    rw [clamp_prompt_index, h1, h, List.length_nil, clampIdx_zero]
  · intro h
    rw [clamp_documents] at h ⊢
    rw [clamp_document_index, h2, clampIdx_pos _ (List.length_pos.mpr h)]
  · intro h
    rw [clamp_documents] at h
    rw [clamp_document_index, h2, h, List.length_nil, clampIdx_zero]
  · intro h
    rw [clamp_activity] at h ⊢
    rw [clamp_activity_index, h3, clampIdx_pos _ (List.length_pos.mpr h)]
  · intro h
    rw [clamp_activity] at h
    rw [clamp_activity_index, h3, h, List.length_nil, clampIdx_zero]
  · intro h
    rw [clamp_column_count] at h ⊢
    rw [clamp_board_col, h4, clampIdx_pos _ h]
  · intro h
    rw [clamp_column_count] at h
    rw [clamp_board_col, h4, h, clampIdx_zero]
  · intro i c hc
    have hcols : boardColumns s.clamp_indices = boardColumns s := by
      unfold boardColumns
      rw [clamp_board]
    rw [hcols] at hc
    unfold boardColumns at hc
    rcases hsb : s.board with _ | b
    · rw [hsb] at hc
      simp at hc
    · rw [hsb] at hc
      have hlen : i < b.columns.length := by
        rcases List.getElem?_eq_some_iff.mp hc with ⟨hlt, _⟩
        exact hlt
      have hcc : s.column_count = b.columns.length := by
        simp [App.column_count, hsb]
      have hrow : s.clamp_indices.board_row[i]? =
          some (clampIdx ((s.board_row[i]?).getD 0) c.tasks.length) := by
        rw [clamp_board_row]
        simp only [hsb]
        rw [clampRows_getElem?, growRows_getElem?_lt s.board_row (hcc ▸ hlen)]
        simp [hc]
      rw [h5 i] at hrow
      constructor
      · intro ht
        rw [hrow, clampIdx_pos _ (List.length_pos.mpr ht)]
      · intro ht
        rw [hrow, ht, List.length_nil, clampIdx_zero]

/-- C1 (counterexample): the claim says every navigation index is 0 after a
replacement leaves its collection empty.  In the reachable state obtained by
loading three prompts, navigating down twice, and then receiving
`PromptsUpdated []`, the prompt list is empty but the prompt index is still
2, not 0: `App::clamp_indices` never resets an index over an empty
collection. -/
theorem claim1_counterexample :
    stalePromptState.prompts = [] ∧ stalePromptState.prompt_index = 2 ∧
      stalePromptState.prompt_index ≠ 0 := by
  decide

/-- C1 (amended): after any collection-replacement message, every navigation
index over a nonempty collection equals `min(previous_index, len - 1)` (hence
lies in `[0, len)`), and every index over an empty collection is left
unchanged (not reset to 0); per-column board rows follow the same rule with
missing row entries defaulting to 0. -/
theorem claim1_amended (a : App) (msg : PollMessage) (h : isReplacement msg) :
    clampedAfter a (handle_poll_message a msg) := by
  cases msg with
  | InitialData v b c ps ds ac =>
      exact clampedAfter_clamp a _ rfl rfl rfl rfl (fun i => growRows_getD a.board_row _ i)
  | BoardUpdated b =>
      exact clampedAfter_clamp a _ rfl rfl rfl rfl (fun i => growRows_getD a.board_row _ i)
  | PromptsUpdated ps => exact clampedAfter_clamp a _ rfl rfl rfl rfl (fun i => rfl)
  | DocumentsUpdated ds => exact clampedAfter_clamp a _ rfl rfl rfl rfl (fun i => rfl)
  | ActivityUpdated ac => exact clampedAfter_clamp a _ rfl rfl rfl rfl (fun i => rfl)
  | HashesChanged hs => exact False.elim h
  | ConnectionLost => exact False.elim h
  | ConnectionRestored => exact False.elim h
  | Error e => exact False.elim h

/-- C1 (witness): replacing the prompt list of a state with index 5 by a
one-element list clamps the index to `min 5 0 = 0`. -/
theorem claim1_amended_witness :
    (handle_poll_message appIdx5 (.PromptsUpdated [res0])).prompt_index = min 5 0 :=
  (claim1_amended appIdx5 (.PromptsUpdated [res0]) trivial).1.1 (by decide)

/-- C2 (counterexample): the claim says a fourth "older" step from `Some(0)`
is a no-op.  On a ResourceDetail overlay over three revisions, four "older"
presses leave the cursor at `None` (back to current), not at `Some(0)`. -/
theorem claim2_counterexample :
    overlayRevCursor (pressSeq appResDetail [.Char '[', .Char '[', .Char '[', .Char '[']) =
      some none ∧
    overlayRevCursor (pressSeq appResDetail [.Char '[', .Char '[', .Char '[', .Char '[']) ≠
      some (some 0) := by
  decide

/-- C2 (amended): over a ResourceDetail overlay with a revisions list of
length 3 and cursor `None`, successive "older" steps yield `Some 2`, `Some 1`,
`Some 0`, and a fourth "older" step returns the cursor to `None` (not a
no-op); from `Some 0`, three "newer" steps pass through `Some 1` and `Some 2`
and return to `None`. -/
theorem claim2_amended (b : App) (res : Resource) (r0 r1 r2 : Revision) (s : Nat)
    (rt : ResourceType) :
    overlayRevCursor (pressSeq
        { b with overlay := some (.ResourceDetail res [r0, r1, r2] none s rt) }
        [.Char '[']) = some (some 2) ∧
    overlayRevCursor (pressSeq
        { b with overlay := some (.ResourceDetail res [r0, r1, r2] none s rt) }
        [.Char '[', .Char '[']) = some (some 1) ∧
    overlayRevCursor (pressSeq
        { b with overlay := some (.ResourceDetail res [r0, r1, r2] none s rt) }
        [.Char '[', .Char '[', .Char '[']) = some (some 0) ∧
    overlayRevCursor (pressSeq
        { b with overlay := some (.ResourceDetail res [r0, r1, r2] none s rt) }
        [.Char '[', .Char '[', .Char '[', .Char '[']) = some none ∧
    overlayRevCursor (pressSeq
        { b with overlay := some (.ResourceDetail res [r0, r1, r2] none s rt) }
        [.Char '[', .Char '[', .Char '[', .Char ']']) = some (some 1) ∧
    overlayRevCursor (pressSeq
        { b with overlay := some (.ResourceDetail res [r0, r1, r2] none s rt) }
        [.Char '[', .Char '[', .Char '[', .Char ']', .Char ']']) = some (some 2) ∧
    overlayRevCursor (pressSeq
        { b with overlay := some (.ResourceDetail res [r0, r1, r2] none s rt) }
        [.Char '[', .Char '[', .Char '[', .Char ']', .Char ']', .Char ']']) = some none :=
  ⟨rfl, rfl, rfl, rfl, rfl, rfl, rfl⟩

/-- C3: from last-seen triple `{h1,p1,d1}`, a changed event carrying
`{h2,p1,d1}` performs exactly a board refetch and an activity refetch (no
prompts or documents refetch), emits exactly one HashesChanged event carrying
the new triple, and updates the last-seen triple — for every outcome of the
refetches. -/
theorem claim3 (api : ApiResults) :
    (handle_sse_hashes api (some ⟨"h1", "p1", "d1"⟩) ⟨"h2", "p1", "d1"⟩).1 =
      [.board, .activity] ∧
    ((handle_sse_hashes api (some ⟨"h1", "p1", "d1"⟩) ⟨"h2", "p1", "d1"⟩).2.1).filter
      isHashesChanged = [.HashesChanged ⟨"h2", "p1", "d1"⟩] ∧
    (handle_sse_hashes api (some ⟨"h1", "p1", "d1"⟩) ⟨"h2", "p1", "d1"⟩).2.2 =
      some ⟨"h2", "p1", "d1"⟩ := by
  cases hb : api.board <;> cases ha : api.activity <;>
    simp [handle_sse_hashes, process_hashes, hb, ha, isHashesChanged]

/-- C4: for the connection scenario [connect, drop, drop, reconnect] (a
successful connection whose stream drops, a failed retry, then a successful
reconnect), the poller emits exactly one ConnectionLost for the loss — none
for the failed retry — and on reconnect exactly one ConnectionRestored
immediately followed by a full resync of all six initial categories. -/
theorem claim4 (api : ApiResults) (v : VersionInfo) (b : Board) (c : Config)
    (ps ds : List Resource) (ac : List ActivityEntry)
    (hv : api.version = some v) (hb : api.board = some b) (hc : api.config = some c)
    (hp : api.list_prompts = some ps) (hd : api.list_documents = some ds)
    (ha : api.activity = some ac) :
    spawn_poller_trace api [.drop [], .fail, .live []] =
      [.InitialData v b c ps ds ac, .ConnectionLost, .ConnectionRestored,
       .InitialData v b c ps ds ac] ∧
    (spawn_poller_trace api [.drop [], .fail, .live []]).countP isConnectionLost = 1 ∧
    (spawn_poller_trace api [.drop [], .fail, .live []]).countP isConnectionRestored = 1 := by
  have hf : fetch_all api = some (.InitialData v b c ps ds ac) := by
    simp [fetch_all, hv, hb, hc, hp, hd, ha]
  refine ⟨?_, ?_, ?_⟩ <;>
    simp [spawn_poller_trace, run_attempts, connect_attempt, run_hash_events, hf,
      isConnectionLost, isConnectionRestored]

/-- C4 (witness): the reconnect scenario evaluated on a concrete api oracle
whose six initial fetches all succeed. -/
theorem claim4_witness :
    spawn_poller_trace apiOk [.drop [], .fail, .live []] =
      [.InitialData sampleVersion emptyBoard sampleConfig [] [] [],
       .ConnectionLost, .ConnectionRestored,
       .InitialData sampleVersion emptyBoard sampleConfig [] [] []] :=
  (claim4 apiOk sampleVersion emptyBoard sampleConfig [] [] []
    rfl rfl rfl rfl rfl rfl).1

/-- C5: two consecutive changed events carrying a triple that equals the
last-seen triple field by field produce zero refetches and zero emitted
messages, for every api oracle. -/
theorem claim5 (api : ApiResults) (prev t : PollHashes)
    (h1 : prev.board = t.board) (h2 : prev.prompts = t.prompts)
    (h3 : prev.documents = t.documents) :
    run_hash_events api (some prev) [t, t] = ([], [], some t) := by
  simp [run_hash_events, handle_sse_hashes, process_hashes, h1, h2, h3]

/-- C5 (witness): the idempotence theorem applied at a concrete triple. -/
theorem claim5_witness :
    run_hash_events apiNone (some ⟨"a", "b", "c"⟩) [⟨"a", "b", "c"⟩, ⟨"a", "b", "c"⟩] =
      ([], [], some ⟨"a", "b", "c"⟩) :=
  claim5 apiNone ⟨"a", "b", "c"⟩ ⟨"a", "b", "c"⟩ rfl rfl rfl

/-- C6: selecting a task on the board when both secondary fetches (full task
and comments) fail still opens a TaskDetail overlay holding the already-known
summary task and an empty comment list, and changes nothing else in the
state. -/
theorem claim6 (a : App) (api : ApiResults) (task : Task)
    (hsel : a.selected_task = some task)
    (htask : api.get_task task.column task.filename = none)
    (hcom : ∀ tid, api.get_comments tid = none) :
    handle_board_key a api ⟨.Enter, false⟩ =
      { a with overlay := some (.TaskDetail task [] 0) } := by
  have hncols : a.column_count ≠ 0 := by
    intro h0
    unfold App.selected_task App.current_column_tasks at hsel
    unfold App.column_count at h0
    cases hab : a.board with
    | none => rw [hab] at hsel; simp at hsel
    | some b =>
        rw [hab] at hsel h0
        simp at h0
        rw [List.getElem?_eq_none (by simp [h0])] at hsel
        simp at hsel
  unfold handle_board_key
  rw [if_neg hncols]
  rw [hsel]
  simp [htask, hcom]

/-- C6 (witness): the fallback overlay on a concrete one-task board with an
api oracle in which every request fails. -/
theorem claim6_witness :
    handle_board_key appBoard apiNone ⟨.Enter, false⟩ =
      { appBoard with overlay := some (.TaskDetail sampleTask [] 0) } :=
  claim6 appBoard apiNone sampleTask rfl rfl (fun _ => rfl)

/-- C7 (counterexample): the claim says "bottom" sets the scroll offset to a
sentinel value independent of the prior offset.  From prior offsets 5 and 0
the same "bottom" press yields 1005 and 1000 respectively: the source adds
1000 to the current offset rather than setting an absolute value. -/
theorem claim7_counterexample :
    overlayScroll (handle_overlay_key appHelp5 ⟨.Char 'G', false⟩) = some 1005 ∧
    overlayScroll (handle_overlay_key appHelp0 ⟨.Char 'G', false⟩) = some 1000 ∧
    overlayScroll (handle_overlay_key appHelp5 ⟨.Char 'G', false⟩) ≠
      overlayScroll (handle_overlay_key appHelp0 ⟨.Char 'G', false⟩) := by
  decide

/-- C7 (amended): for every open overlay, "bottom" adds the large sentinel
1000 to the current scroll offset (a relative move, clamped below at 0),
"top" sets the offset to 0 absolutely, and no sequence of scroll actions
(±1, ±15, top, bottom) ever drives the clamped offset arithmetic below 0. -/
theorem claim7_amended :
    (∀ (a : App) (s : Nat), overlayScroll a = some s →
       overlayScroll (handle_overlay_key a ⟨.Char 'G', false⟩) = some (s + 1000)) ∧
    (∀ (a : App) (s : Nat), overlayScroll a = some s →
       overlayScroll (handle_overlay_key a ⟨.Char 'g', false⟩) = some 0) ∧
    (∀ (s : Int) (acts : List ScrollAct), 0 ≤ s → 0 ≤ acts.foldl applyScrollInt s) := by
  refine ⟨?_, ?_, ?_⟩
  · intro a s h
    show overlayScroll (scroll_overlay a 1000) = some (s + 1000)
    unfold overlayScroll at h
    unfold scroll_overlay overlayScroll
    rcases hov : a.overlay with _ | ov
    · rw [hov] at h; exact absurd h (by simp)
    · rw [hov] at h
      cases ov <;> simp_all <;> omega
  · intro a s h
    show overlayScroll (set_overlay_scroll a 0) = some 0
    unfold overlayScroll at h
    unfold set_overlay_scroll overlayScroll
    rcases hov : a.overlay with _ | ov
    · rw [hov] at h; exact absurd h (by simp)
    · rw [hov] at h
      cases ov <;> simp_all
  · intro s acts
    induction acts generalizing s with
    | nil => intro h; simpa using h
    | cons act rest ih =>
        intro h
        have hstep : 0 ≤ applyScrollInt s act := by
          cases act <;> simp [applyScrollInt]
        simpa [List.foldl] using ih _ hstep

/-- C7 (witness): the amended scroll facts at concrete states. -/
theorem claim7_amended_witness :
    overlayScroll (handle_overlay_key appHelp5 ⟨.Char 'G', false⟩) = some 1005 ∧
    overlayScroll (handle_overlay_key appHelp5 ⟨.Char 'g', false⟩) = some 0 ∧
    (0 : Int) ≤ [ScrollAct.line_up, ScrollAct.bottom].foldl applyScrollInt 0 :=
  ⟨claim7_amended.1 appHelp5 5 rfl, claim7_amended.2.1 appHelp5 5 rfl,
   claim7_amended.2.2 0 [ScrollAct.line_up, ScrollAct.bottom] le_rfl⟩

/-- C8 (counterexample): the claim says that in tab-bar focus every key other
than left/right and down/enter/space leaves the state unchanged.  Esc is none
of those keys, yet it moves focus back to Content. -/
theorem claim8_counterexample :
    appTabBar.focus = Focus.TabBar ∧ appTabBar.overlay = none ∧
    (handle_key appTabBar apiNone ⟨.Esc, false⟩).focus = Focus.Content ∧
    handle_key appTabBar apiNone ⟨.Esc, false⟩ ≠ appTabBar := by
  decide

/-- C8 (amended): with no overlay, tab-bar focus, and a key that is neither
the quit combination nor a global key: left keys (h/Left/BackTab) cycle the
view backward, right keys (l/Right/Tab) cycle it forward, content keys
(j/Down/Enter/Space) and also Esc return focus to Content, and every other
key leaves the state completely unchanged. -/
theorem claim8_amended (a : App) (api : ApiResults) (k : KeyEvent)
    (hov : a.overlay = none) (hf : a.focus = .TabBar)
    (hq : ¬ isQuitCombo k) (hg : ¬ isGlobalKey k) :
    (isCycleLeftKey k → handle_key a api k = { a with view := a.view.prev }) ∧
    (isCycleRightKey k → handle_key a api k = { a with view := a.view.next }) ∧
    (isToContentKey k → handle_key a api k = { a with focus := .Content }) ∧
    (¬ isCycleLeftKey k → ¬ isCycleRightKey k → ¬ isToContentKey k →
      handle_key a api k = a) := by
  obtain ⟨code, ctrl⟩ := k
  refine ⟨?_, ?_, ?_, ?_⟩
  · rintro (h | h | h) <;> simp only [] at h <;> subst h <;>
      cases ctrl <;> simp [handle_key, hov, hf]
  · rintro (h | h | h) <;> simp only [] at h <;> subst h <;>
      cases ctrl <;> simp [handle_key, hov, hf]
  · rintro (h | h | h | h | h) <;> simp only [] at h <;> subst h <;>
      cases ctrl <;> simp [handle_key, hov, hf]
  · intro hl hr hc
    simp only [isCycleLeftKey, isCycleRightKey, isToContentKey, not_or] at hl hr hc
    obtain ⟨hl1, hl2, hl3⟩ := hl
    obtain ⟨hr1, hr2, hr3⟩ := hr
    obtain ⟨hc1, hc2, hc3, hc4, hc5⟩ := hc
    simp only [isQuitCombo, not_and] at hq
    simp only [isGlobalKey, not_or] at hg
    obtain ⟨hg1, hg2, hg3, hg4, hg5, hg6, hg7⟩ := hg
    cases code <;> simp_all [handle_key, hov, hf]

/-- C8 (witness): the amended tab-bar dispatch applied to the Left key on a
concrete tab-bar-focused state. -/
theorem claim8_amended_witness :
    handle_key appTabBar apiNone ⟨.Left, false⟩ =
      { appTabBar with view := appTabBar.view.prev } :=
  (claim8_amended appTabBar apiNone ⟨.Left, false⟩ rfl rfl (by simp [isQuitCombo])
    (by simp [isGlobalKey])).1
    (Or.inr (Or.inl rfl))

/-- C9: applying any sync message to the reducer never changes the current
view, the focus, or the open overlay (including its scroll offset and
revision cursor, which are part of the overlay value). -/
theorem claim9 (a : App) (msg : PollMessage) :
    (handle_poll_message a msg).view = a.view ∧
    (handle_poll_message a msg).focus = a.focus ∧
    (handle_poll_message a msg).overlay = a.overlay := by
  cases msg <;> exact ⟨rfl, rfl, rfl⟩

/-- C10: in the Prompts, Documents, or Activity view with content focus and
an empty list, Up still transfers focus to the tab bar, while Down, first
(g), last (G), and select (Enter/Space) leave the state unchanged. -/
theorem claim10 (a : App) (api : ApiResults)
    (hov : a.overlay = none) (hf : a.focus = .Content)
    (hv : (a.view = .Prompts ∧ a.prompts = []) ∨
          (a.view = .Documents ∧ a.documents = []) ∨
          (a.view = .Activity ∧ a.activity = [])) :
    handle_key a api ⟨.Up, false⟩ = { a with focus := .TabBar } ∧
    handle_key a api ⟨.Down, false⟩ = a ∧
    handle_key a api ⟨.Char 'g', false⟩ = a ∧
    handle_key a api ⟨.Char 'G', false⟩ = a ∧
    handle_key a api ⟨.Enter, false⟩ = a ∧
    handle_key a api ⟨.Char ' ', false⟩ = a := by
  rcases hv with ⟨hview, hempty⟩ | ⟨hview, hempty⟩ | ⟨hview, hempty⟩ <;>
    refine ⟨?_, ?_, ?_, ?_, ?_, ?_⟩ <;>
      simp [handle_key, handle_list_key, handle_activity_key, hov, hf, hview, hempty]

/-- C10 (witness): the empty-list key behavior on a concrete state in the
Prompts view. -/
theorem claim10_witness :
    handle_key appPromptsEmpty apiNone ⟨.Up, false⟩ =
      { appPromptsEmpty with focus := .TabBar } ∧
    handle_key appPromptsEmpty apiNone ⟨.Down, false⟩ = appPromptsEmpty ∧
    handle_key appPromptsEmpty apiNone ⟨.Char 'g', false⟩ = appPromptsEmpty ∧
    handle_key appPromptsEmpty apiNone ⟨.Char 'G', false⟩ = appPromptsEmpty ∧
    handle_key appPromptsEmpty apiNone ⟨.Enter, false⟩ = appPromptsEmpty ∧
    handle_key appPromptsEmpty apiNone ⟨.Char ' ', false⟩ = appPromptsEmpty :=
  claim10 appPromptsEmpty apiNone rfl rfl (Or.inl ⟨rfl, rfl⟩)

end Mdboard
